import Mathlib

/-!
Verification of the Kanthera backend document field-extraction pipeline.

The embedding below is a shallow model of `src/server.js`, concentrating on
the two routes the claims are about:

* the `/api/workers/:id/docs` route of the V1.5 revision (lines 443-489),
  which builds a placeholder OCR text, optionally calls the OpenAI chat
  API with a fixed prompt, parses the reply as JSON and responds with
  `{ ok, file, url, ocr, extracted, confidence }`;
* the `/api/upload` route of the MVP revision (lines 142-157), whose OCR
  result is a fixed stub string.

JavaScript runtime values reaching the pipeline are modelled by `JsValue`
(numbers as rationals).  The two external capabilities are modelled as
functions supplied per request: the language-model provider as a function
from the prompt to an outcome (`throws` for a rejected promise), and the
JSON.parse builtin as an environment function `Env.jsonParse` from the
parsed value (JS coerces a non-string argument to a string first) to a
parse result.  Theorems about JSON-dependent behaviour take the needed
JSON facts (for instance that the text "\x7b\x7d" parses to the empty
object) as hypotheses, and concrete runs instantiate them with `envStd`,
a finite fragment of the JSON.parse semantics.
-/

namespace Kanthera

/-- A JavaScript runtime value, as observed by the extraction route.
Numbers are modelled as rationals. -/
inductive JsValue : Type where
  | vNull
  | vUndefined
  | vBool (b : Bool)
  | vNum (q : ℚ)
  | vStr (s : String)
  | vArr (elems : List JsValue)
  | vObj (fields : List (String × JsValue))
deriving Repr

/-- JavaScript nullish test (`null` or `undefined`), as used by `?.` and `??`. -/
def jsNullish : JsValue → Bool
  | .vNull => true
  | .vUndefined => true
  | _ => false

/-- JavaScript truthiness, as used by `||` and by `if (openai)`. -/
def jsTruthy : JsValue → Bool
  | .vNull => false
  | .vUndefined => false
  | .vBool b => b
  | .vNum q => q != 0
  | .vStr s => s != ""
  | .vArr _ => true
  | .vObj _ => true

/-- The numeric value of a list of decimal digit characters. -/
def digitsToNat (l : List Char) : Nat :=
  l.foldl (fun acc c => acc * 10 + (c.toNat - 48)) 0

/-- A property key that is a canonical array index (`"0"`, `"1"`, ...):
nonempty, all decimal digits, and without a leading zero except for `"0"`
itself. -/
def canonIndex? (k : String) : Option Nat :=
  match k.data with
  | [] => none
  | c :: cs =>
    if c = '0' then (if cs = [] then some 0 else none)
    else if c.isDigit && cs.all Char.isDigit then some (digitsToNat (c :: cs))
    else none

/-- Property lookup in a JS object; with duplicate keys the last one wins,
as in object literals and `JSON.parse`. -/
def objLookup (fields : List (String × JsValue)) (k : String) : JsValue :=
  match fields.reverse.lookup k with
  | some v => v
  | none => .vUndefined

/-- Indexing a string: `s["0"]` is the first character, `s.length` its length. -/
def strMember (s : String) (k : String) : JsValue :=
  if k = "length" then .vNum s.length
  else
    match canonIndex? k with
    | some i =>
      match s.data.get? i with
      | some c => .vStr (String.mk [c])
      | none => .vUndefined
    | none => .vUndefined

/-- Property access `base[k]` on a non-nullish base: never throws, yields
`undefined` for absent members (primitives have no own properties we model
beyond string/array indexing and `length`). -/
def jsMember (v : JsValue) (k : String) : JsValue :=
  match v with
  | .vNull => .vUndefined
  | .vUndefined => .vUndefined
  | .vBool _ => .vUndefined
  | .vNum _ => .vUndefined
  | .vStr s => strMember s k
  | .vArr xs =>
    if k = "length" then .vNum xs.length
    else
      match canonIndex? k with
      | some i =>
        match xs.get? i with
        | some x => x
        | none => .vUndefined
      | none => .vUndefined
  | .vObj fs => objLookup fs k

/-- Property access `base.k`: throws a TypeError (modelled as `.error ()`)
when the base is nullish, otherwise looks the member up. -/
def jsGetE (v : JsValue) (k : String) : Except Unit JsValue :=
  if jsNullish v then .error () else .ok (jsMember v k)

/-- The optional-chain tail `choices?.[0]?.message?.content`: once a link is
nullish the whole chain is `undefined`; later accesses cannot throw because
each base is checked first. -/
def chainTail (choices : JsValue) : JsValue :=
  if jsNullish choices then .vUndefined
  else
    let c0 := jsMember choices "0"
    if jsNullish c0 then .vUndefined
    else
      let msg := jsMember c0 "message"
      if jsNullish msg then .vUndefined
      else jsMember msg "content"

/-- `out.choices?.[0]?.message?.content` — the initial `out.choices` access
throws when `out` itself is nullish; the rest is `chainTail`. -/
def contentOfE (out : JsValue) : Except Unit JsValue := do
  let choices ← jsGetE out "choices"
  pure (chainTail choices)

/-- Result of the `JSON.parse` builtin: a value, or a thrown SyntaxError. -/
inductive ParseResult : Type where
  | ok (v : JsValue)
  | err
deriving Repr

/-- The per-process environment: the `JSON.parse` builtin, modelled on the
value it receives (JS stringifies a non-string argument first). -/
structure Env : Type where
  jsonParse : JsValue → ParseResult

/-- Outcome of one `openai.chat.completions.create` call: the promise
rejects (`throws`) or resolves with some value. -/
inductive LLMOutcome : Type where
  | throws
  | returns (out : JsValue)

/-- The JS string "\x7b\x7d", the default for a falsy message content. -/
def jsonDefault : JsValue := .vStr "\x7b\x7d"

/-- The body of the inner `try` of the docs route once `create` has resolved
with `out` (server.js lines 474-477), returning the pair
`(extracted, confidence)`:

```
const txt = out.choices?.[0]?.message?.content || "\x7b\x7d";
extracted = JSON.parse(txt);
confidence = extracted.confidence_overall ?? 0.7;
```
Any throw inside is caught by `catch { extracted = {}; }`, which leaves
`confidence` at its initial `0.7`.  Note that when the member access on a
nullish parsed value throws, `extracted` is reset to `{}` by the catch even
though the parse had succeeded. -/
def extractionStep (env : Env) (out : JsValue) : JsValue × JsValue :=
  match contentOfE out with
  | .error _ => (.vObj [], .vNum 0.7)
  | .ok content =>
    match env.jsonParse (if jsTruthy content then content else jsonDefault) with
    | .err => (.vObj [], .vNum 0.7)
    | .ok v =>
      match jsGetE v "confidence_overall" with
      | .error _ => (.vObj [], .vNum 0.7)
      | .ok co => (v, if jsNullish co then .vNum 0.7 else co)

/-- One uploaded file as the route sees it: multer's stored metadata plus the
stored bytes (which the extraction route never reads) and the `Date.now()`
timestamp used in the stored filename. -/
structure UploadedFile : Type where
  originalname : String
  bytes : List Nat
  timestamp : Nat

/-- JS whitespace for the `\s` character class (ASCII part). -/
def isJsWs (c : Char) : Bool :=
  c = ' ' || c = '\t' || c = '\n' || c = '\r' || c = '\x0b' || c = '\x0c'

/-- `originalname.replace(/\s+/g, "_")` on the character list: each maximal
whitespace run becomes one underscore (V1.5 multer `filename`). -/
def collapseWsAux : List Char → Bool → List Char
  | [], _ => []
  | c :: cs, inRun =>
    if isJsWs c then
      if inRun then collapseWsAux cs true else '_' :: collapseWsAux cs true
    else c :: collapseWsAux cs false

/-- V1.5 filename sanitization: `file.originalname.replace(/\s+/g, "_")`. -/
def sanitizeRev2 (s : String) : String := String.mk (collapseWsAux s.data false)

/-- Stored filename in the V1.5 revision: `Date.now() + "_" + safe`. -/
def rev2Filename (f : UploadedFile) : String :=
  toString f.timestamp ++ "_" ++ sanitizeRev2 f.originalname

/-- The placeholder OCR text of the docs route (line 448):
`OCR from: originalname`.  No OCR provider exists in this revision; the
placeholder is produced unconditionally. -/
def docsOcrText (name : String) : String := "OCR from: " ++ name

/-- The fixed prompt preamble (lines 454-466) after `.trim()`, up to and
including the opening `\"\"\"` around the OCR text. -/
def promptHeader : String :=
  "Estrai i seguenti campi dal testo OCR. Rispondi SOLO in JSON:\n\x7b\n  \"doc_type\": \"visita_medica | formazione_generale | formazione_specifica | alto_rischio | antincendio | primo_soccorso | dpi | tesserino | preposto | rls | altro\",\n  \"holder_name\": \"string\",\n  \"cf\": \"string|null\",\n  \"issue_date\": \"YYYY-MM-DD|null\",\n  \"expiry_date\": \"YYYY-MM-DD|null\",\n  \"confidence_overall\": 0.0-1.0\n\x7d\nTESTO:\n\"\"\""

/-- The full prompt for a given OCR text: the template literal of lines
454-466 after `.trim()` (the interpolated OCR text sits between triple
quotes; trimming only strips the template's own leading/trailing
whitespace). -/
def buildPrompt (ocrText : String) : String := promptHeader ++ ocrText ++ "\"\"\""

/-- The prompt actually sent to the provider for an uploaded file. -/
def sentPrompt (f : UploadedFile) : String := buildPrompt (docsOcrText f.originalname)

/-- The `(extracted, confidence)` pair produced by lines 450-478: the
initial `(\x7b\x7d, 0.7)` when the OpenAI client is not configured, the
catch result when `create` rejects, and `extractionStep` otherwise. -/
def routeFields (openaiConfigured : Bool) (env : Env) (llm : String → LLMOutcome)
    (f : UploadedFile) : JsValue × JsValue :=
  if openaiConfigured then
    match llm (sentPrompt f) with
    | .throws => (.vObj [], .vNum 0.7)
    | .returns out => extractionStep env out
  else (.vObj [], .vNum 0.7)

/-- The JSON body of the docs route's 200 response (lines 480-487). -/
structure DocsResponse : Type where
  ok : Bool
  file : String
  url : String
  ocr : String
  extracted : JsValue
  confidence : JsValue
deriving Repr

/-- The 200 response of `POST /api/workers/:id/docs` for a present file. -/
def docsResponse (openaiConfigured : Bool) (env : Env) (proto host : String)
    (f : UploadedFile) (llm : String → LLMOutcome) : DocsResponse :=
  { ok := true
    file := "/uploads/" ++ rev2Filename f
    url := proto ++ "://" ++ host ++ "/uploads/" ++ rev2Filename f
    ocr := docsOcrText f.originalname
    extracted := (routeFields openaiConfigured env llm f).1
    confidence := (routeFields openaiConfigured env llm f).2 }

/-- Outcome of the whole route: the 400 for a missing file, or the 200
response.  The route body's only throwing operations are the `create` call,
`JSON.parse` and the member accesses, all inside the inner `try`; the outer
catch (line 488) is therefore unreachable and has no constructor here. -/
inductive RouteResult : Type where
  | badRequest (error : String)
  | success (r : DocsResponse)

/-- `POST /api/workers/:id/docs` (lines 443-489). -/
def workersDocsRoute (openaiConfigured : Bool) (env : Env) (proto host : String)
    (file? : Option UploadedFile) (llm : String → LLMOutcome) : RouteResult :=
  match file? with
  | none => .badRequest "file missing"
  | some f => .success (docsResponse openaiConfigured env proto host f llm)

/-! Section: The MVP revision's `/api/upload` route (lines 126-157) -/

/-- A character of the JS `\w` class, a dot or a dash (MVP multer pattern
`[^\w.\-]`). -/
def isWordDotDash (c : Char) : Bool :=
  c.isAlphanum || c = '_' || c = '.' || c = '-'

/-- MVP filename sanitization: `file.originalname.replace(/[^\w.\-]/g, "_")`
(every character outside the class becomes one underscore). -/
def sanitizeRev1 (s : String) : String :=
  String.mk (s.data.map (fun c => if isWordDotDash c then c else '_'))

/-- Stored filename in the MVP revision: `ts + "_" + clean`. -/
def rev1Filename (f : UploadedFile) : String :=
  toString f.timestamp ++ "_" ++ sanitizeRev1 f.originalname

/-- The MVP OCR stub string (line 150): Vision is never called, the route
answers with a fixed text naming the original file, its stored path, and
the note that real OCR is disabled. -/
def uploadOcrStub (originalname rel : String) : String :=
  "(OCR stub) File caricato correttamente: " ++ originalname ++ "\nPercorso: "
    ++ rel ++ "\nNota: abilita Google Vision per OCR reale."

/-- The JSON body of the MVP upload route's 200 response (line 152). -/
structure UploadResponse : Type where
  ok : Bool
  file : String
  url : String
  ocr : String
deriving Repr

/-- Outcome of the MVP `/api/upload` route. -/
inductive UploadResult : Type where
  | badRequest (error : String)
  | success (r : UploadResponse)

/-- `POST /api/upload` of the MVP revision (lines 142-157): 400 when the
file is missing, otherwise the stub-OCR response; nothing in the body can
throw. -/
def uploadRoute (base : String) (file? : Option UploadedFile) : UploadResult :=
  match file? with
  | none => .badRequest "File missing"
  | some f =>
    .success
      { ok := true
        file := "/uploads/" ++ rev1Filename f
        url := base ++ ("/uploads/" ++ rev1Filename f)
        ocr := uploadOcrStub f.originalname ("/uploads/" ++ rev1Filename f) }

/-! Section: The spec-modelled PatternFallback and merge

The specification's PatternFallback component (§4.3) and the fallback-merge
step of the ExtractionPipeline (§4.4, steps 2-4) appear in no revision
under `src/`; the definitions below model them from the spec's words. -/

/-- The closed `docType` value set of the schema (§3, and the prompt). -/
def docTypeEnum : List String :=
  ["visita_medica", "formazione_generale", "formazione_specifica", "alto_rischio",
   "antincendio", "primo_soccorso", "dpi", "tesserino", "preposto", "rls", "altro"]

/-- Modelled from the spec: a `DD/MM/YYYY` date token at the head of the
character list, normalized to ISO `YYYY-MM-DD` (PatternFallback, §4.3). -/
def dmyAt : List Char → Option String
  | d1 :: d2 :: '/' :: m1 :: m2 :: '/' :: y1 :: y2 :: y3 :: y4 :: _ =>
    if [d1, d2, m1, m2, y1, y2, y3, y4].all Char.isDigit then
      some (String.mk [y1, y2, y3, y4, '-', m1, m2, '-', d1, d2])
    else none
  | _ => none

/-- Modelled from the spec: a `YYYY-MM-DD` date token at the head of the
character list (PatternFallback, §4.3). -/
def ymdAt : List Char → Option String
  | y1 :: y2 :: y3 :: y4 :: '-' :: m1 :: m2 :: '-' :: d1 :: d2 :: _ =>
    if [y1, y2, y3, y4, m1, m2, d1, d2].all Char.isDigit then
      some (String.mk [y1, y2, y3, y4, '-', m1, m2, '-', d1, d2])
    else none
  | _ => none

/-- Modelled from the spec: the left-to-right scan collecting date tokens in
the two fixed formats in order of first appearance, advancing past each
matched token (PatternFallback, §4.3).  The fuel argument, initially the
list length, only discharges termination; every step consumes at least one
character. -/
def scanDatesAux : Nat → List Char → List String
  | 0, _ => []
  | _, [] => []
  | fuel + 1, c :: cs =>
    match dmyAt (c :: cs) with
    | some d => d :: scanDatesAux fuel (cs.drop 9)
    | none =>
      match ymdAt (c :: cs) with
      | some d => d :: scanDatesAux fuel (cs.drop 9)
      | none => scanDatesAux fuel cs

/-- Modelled from the spec: all date tokens of a raw text, in textual
order. -/
def scanDates (raw : String) : List String := scanDatesAux raw.data.length raw.data

/-- Modelled from the spec: the PatternFallback slots — first match becomes
the candidate issue date, the second distinct match the candidate expiry
date; `none` when fewer matches exist, never fabricated (§4.3). -/
def fallbackDates (raw : String) : Option String × Option String :=
  match scanDates raw with
  | [] => (none, none)
  | d :: rest => (some d, rest.find? (fun e => e != d))

/-- Modelled from the spec: the `ExtractedFields` record of §3. -/
structure SpecFields : Type where
  docType : String
  holderName : Option String
  taxCode : Option String
  issueDate : Option String
  expiryDate : Option String
  confidence : ℚ
deriving Repr, DecidableEq

/-- Modelled from the spec: the empty/unknown `ExtractedFields` used as the
base result on structured-extraction failure — `docType` defaults to
`altro`, `confidence` to 0 (§4.4 step 2). -/
def specEmptyFields : SpecFields :=
  { docType := "altro", holderName := none, taxCode := none,
    issueDate := none, expiryDate := none, confidence := 0 }

/-- Modelled from the spec: steps 2-4 of the ExtractionPipeline — take the
extractor's record (or the empty one on failure) as base, then backfill
only the missing date slots from the PatternFallback scan; confidence is
left as set in step 2 (§4.4). -/
def specPipelineMerge (base? : Option SpecFields) (rawText : String) : SpecFields :=
  let base := base?.getD specEmptyFields
  let slots := fallbackDates rawText
  { base with
    issueDate := match base.issueDate with | some d => some d | none => slots.1
    expiryDate := match base.expiryDate with | some d => some d | none => slots.2 }

/-! Section: Concrete fixtures for closed runs -/

/-- A finite fragment of the `JSON.parse` semantics: each listed string is
mapped to exactly the value ECMA-404 JSON parsing gives it; strings outside
the list (never exercised by the closed runs below) map to a SyntaxError. -/
def envStd : Env :=
  { jsonParse := fun v =>
      match v with
      | .vStr s =>
        if s = "\x7b\x7d" then .ok (.vObj [])
        else if s = "\x7b\"doc_type\":\"banana\"\x7d" then
          .ok (.vObj [("doc_type", .vStr "banana")])
        else if s = "\x7b\"confidence_overall\":5\x7d" then
          .ok (.vObj [("confidence_overall", .vNum 5)])
        else if s = "\x7b\"confidence_overall\":\"high\"\x7d" then
          .ok (.vObj [("confidence_overall", .vStr "high")])
        else if s = "\x7b\"holder_name\":\"Mario\"\x7d" then
          .ok (.vObj [("holder_name", .vStr "Mario")])
        else .err
      | _ => .err }

/-- A resolved `create` value whose single choice carries the given message
content. -/
def outWith (content : JsValue) : JsValue :=
  .vObj [("choices", .vArr [.vObj [("message", .vObj [("content", content)])]])]

/-- A deterministic provider answering every prompt with one choice holding
the given content. -/
def llmRespond (content : JsValue) : String → LLMOutcome :=
  fun _ => .returns (outWith content)

/-- A provider whose call always rejects. -/
def llmDown : String → LLMOutcome := fun _ => .throws

/-- A concrete uploaded file. -/
def testFile : UploadedFile :=
  { originalname := "doc.pdf", bytes := [1, 2, 3], timestamp := 1700000000000 }

/-- A JSON reply whose `doc_type` lies outside the prompt's closed set. -/
def bananaContent : JsValue := .vStr "\x7b\"doc_type\":\"banana\"\x7d"

/-- A JSON reply with an out-of-range numeric `confidence_overall`. -/
def confFiveContent : JsValue := .vStr "\x7b\"confidence_overall\":5\x7d"

/-- A JSON reply with a non-numeric `confidence_overall`. -/
def confHighContent : JsValue := .vStr "\x7b\"confidence_overall\":\"high\"\x7d"

/-- A syntactically valid JSON reply missing the required schema keys. -/
def missingKeysContent : JsValue := .vStr "\x7b\"holder_name\":\"Mario\"\x7d"

/-- A confidence value that is a number within the documented `[0, 1]`
bounds. -/
def confidenceInRange (v : JsValue) : Prop :=
  ∃ q : ℚ, v = .vNum q ∧ 0 ≤ q ∧ q ≤ 1

/-- Boolean prefix test on character lists. -/
def isPrefixChars : List Char → List Char → Bool
  | [], _ => true
  | _ :: _, [] => false
  | p :: ps, c :: cs => p = c && isPrefixChars ps cs

/-- Boolean substring test on character lists (pattern, haystack). -/
def containsChars : List Char → List Char → Bool
  | pat, [] => isPrefixChars pat []
  | pat, c :: cs => isPrefixChars pat (c :: cs) || containsChars pat cs

/-- Substring test on strings. -/
def strContains (s pat : String) : Bool := containsChars pat.data s.data

/-- Whether a string carries any textual marker that the OCR output is a
stub (the word `stub` in any of its casings). -/
def mentionsStub (s : String) : Bool :=
  strContains s "stub" || strContains s "Stub" || strContains s "STUB"

/-- The string marks itself as an OCR stub by starting with `(OCR stub)`. -/
def marksStubP (s : String) : Prop := ∃ t, s = "(OCR stub)" ++ t

/-! Section: Helper lemmas -/

/-- On the fully successful path — the provider resolves, the content
parses to a non-nullish value `v` — the docs route's response carries `v`
as `extracted` and the `??`-defaulted `confidence_overall` member as
`confidence`. -/
theorem docsResponse_success {env : Env} {proto host : String} {f : UploadedFile}
    {llm : String → LLMOutcome} {out content v : JsValue}
    (hout : llm (sentPrompt f) = .returns out)
    (h1 : contentOfE out = .ok content)
    (h2 : env.jsonParse (if jsTruthy content then content else jsonDefault) = .ok v)
    (h3 : jsNullish v = false) :
    docsResponse true env proto host f llm =
      { ok := true
        file := "/uploads/" ++ rev2Filename f
        url := proto ++ "://" ++ host ++ "/uploads/" ++ rev2Filename f
        ocr := docsOcrText f.originalname
        extracted := v
        confidence :=
          if jsNullish (jsMember v "confidence_overall") then JsValue.vNum 0.7
          else jsMember v "confidence_overall" } := by
  simp only [docsResponse, routeFields, extractionStep, hout, h1, h2, jsGetE, h3,
    if_true, Bool.false_eq_true, if_false]

/-! Section: Claim C1 -/

/-- Claim C1 as stated is false: with the OpenAI client not configured (and
OCR unconditionally the placeholder in this revision), the docs route for
the file `doc.pdf` returns normally but with `confidence = 0.7` — not 0 —
and an empty `extracted` object whose `doc_type` member is `undefined` —
not `"altro"`. -/
theorem c1_counterexample :
    workersDocsRoute false envStd "https" "api.test" (some testFile) llmDown
      = .success
          { ok := true
            file := "/uploads/1700000000000_doc.pdf"
            url := "https://api.test/uploads/1700000000000_doc.pdf"
            ocr := "OCR from: doc.pdf"
            extracted := .vObj []
            confidence := .vNum 0.7 }
    ∧ JsValue.vNum 0.7 ≠ JsValue.vNum 0
    ∧ jsMember (JsValue.vObj []) "doc_type" ≠ JsValue.vStr "altro" := by
  refine ⟨rfl, ?_, ?_⟩
  · intro h
    exact absurd (JsValue.vNum.inj h) (by norm_num)
  · have h0 : jsMember (JsValue.vObj []) "doc_type" = JsValue.vUndefined := rfl
    rw [h0]
    simp

/-- Claim C1 amended: when the OCR capability is unavailable (always the
case in this revision) and the language-model capability is unavailable,
the route returns normally, raising no error, and the returned record has
`extracted = \x7b\x7d` (no docType field at all) and `confidence = 0.7`. -/
theorem c1_amended (env : Env) (proto host : String) (f : UploadedFile)
    (llm : String → LLMOutcome) :
    workersDocsRoute false env proto host (some f) llm
      = .success
          { ok := true
            file := "/uploads/" ++ rev2Filename f
            url := proto ++ "://" ++ host ++ "/uploads/" ++ rev2Filename f
            ocr := docsOcrText f.originalname
            extracted := .vObj []
            confidence := .vNum 0.7 } := rfl

/-! Section: Claim C2 (spec-modelled) -/

/-- Claim C2: for every raw text whose date-token scan yields exactly
`15/03/2024` followed by `15/03/2026` (normalized to ISO), when the
structured extractor fails the merged result of the spec-modelled pipeline
has `issueDate = 2024-03-15`, `expiryDate = 2026-03-15` and
`confidence = 0`. -/
theorem c2_fallback_fills_gaps (t : String)
    (h : scanDates t = ["2024-03-15", "2026-03-15"]) :
    (specPipelineMerge none t).issueDate = some "2024-03-15"
    ∧ (specPipelineMerge none t).expiryDate = some "2026-03-15"
    ∧ (specPipelineMerge none t).confidence = 0 := by
  simp [specPipelineMerge, fallbackDates, h, specEmptyFields]

/-- Witness for C2 at a concrete raw text containing exactly the two date
tokens. -/
theorem c2_fallback_fills_gaps_witness :
    scanDates "certificato: 15/03/2024 scadenza 15/03/2026"
      = ["2024-03-15", "2026-03-15"]
    ∧ ((specPipelineMerge none "certificato: 15/03/2024 scadenza 15/03/2026").issueDate
        = some "2024-03-15"
      ∧ (specPipelineMerge none "certificato: 15/03/2024 scadenza 15/03/2026").expiryDate
        = some "2026-03-15"
      ∧ (specPipelineMerge none "certificato: 15/03/2024 scadenza 15/03/2026").confidence
        = 0) :=
  ⟨rfl, c2_fallback_fills_gaps "certificato: 15/03/2024 scadenza 15/03/2026" rfl⟩

/-! Section: Claim C3 -/

/-- Claim C3: for every configuration, JSON.parse behaviour and provider
behaviour (rejection, or any resolved value — including ones whose content
is missing, non-JSON, or schema-incomplete), the docs route with a present
file reaches the 200 success response: no internal OCR/extraction failure
is visible to the caller.  In this embedding every throwing operation of
the route body (the `create` call, `JSON.parse`, the member accesses) is
modelled explicitly, and each throwing path lands in a catch that still
produces the success value. -/
theorem c3_no_failure_path (openaiConfigured : Bool) (env : Env)
    (proto host : String) (f : UploadedFile) (llm : String → LLMOutcome) :
    ∃ r, workersDocsRoute openaiConfigured env proto host (some f) llm = .success r
      ∧ r.ok = true :=
  ⟨docsResponse openaiConfigured env proto host f llm, rfl, rfl⟩

/-! Section: Claim C4 -/

/-- Claim C4 as stated is false: a successful structured-extractor output
whose `doc_type` is `"banana"` — outside the fixed 11-value set — is passed
through verbatim to the caller; nothing coerces it to `"altro"`. -/
theorem c4_counterexample :
    (docsResponse true envStd "https" "api.test" testFile
        (llmRespond bananaContent)).extracted
      = .vObj [("doc_type", .vStr "banana")]
    ∧ jsMember (JsValue.vObj [("doc_type", JsValue.vStr "banana")]) "doc_type"
      = JsValue.vStr "banana"
    ∧ "banana" ∉ docTypeEnum
    ∧ JsValue.vStr "banana" ≠ JsValue.vStr "altro" := by
  refine ⟨rfl, rfl, by decide, by simp⟩

/-- Claim C4 amended: on every successful structured extraction the parsed
provider value is passed through unchanged as `extracted`; the `docType`
enum is only requested in the prompt text, never validated — so the
returned `doc_type` is whatever the provider sent. -/
theorem c4_amended (env : Env) (proto host : String) (f : UploadedFile)
    (llm : String → LLMOutcome) (out content v : JsValue)
    (hout : llm (sentPrompt f) = .returns out)
    (h1 : contentOfE out = .ok content)
    (h2 : env.jsonParse (if jsTruthy content then content else jsonDefault) = .ok v)
    (h3 : jsNullish v = false) :
    (docsResponse true env proto host f llm).extracted = v := by
  rw [docsResponse_success hout h1 h2 h3]

/-- Witness for the amended C4 at the `"banana"` reply. -/
theorem c4_amended_witness :
    (docsResponse true envStd "https" "api.test" testFile
        (llmRespond bananaContent)).extracted
      = .vObj [("doc_type", .vStr "banana")] :=
  c4_amended envStd "https" "api.test" testFile (llmRespond bananaContent)
    (outWith bananaContent) bananaContent (.vObj [("doc_type", .vStr "banana")])
    rfl rfl rfl rfl

/-! Section: Claim C5 -/

/-- Claim C5 as stated is false: when the provider reports
`confidence_overall: 5`, the returned confidence is the number 5, which is
not within `[0, 1]` — the route applies `??` but no range validation. -/
theorem c5_counterexample :
    (docsResponse true envStd "https" "api.test" testFile
        (llmRespond confFiveContent)).confidence
      = .vNum 5
    ∧ ¬ confidenceInRange (JsValue.vNum 5) := by
  refine ⟨rfl, ?_⟩
  rintro ⟨q, hq, h0, h1⟩
  rw [(JsValue.vNum.inj hq).symm] at h1
  norm_num at h1

/-- Claim C5 amended: the returned confidence is either exactly the default
0.7 (chosen whenever the client is unconfigured, the call rejects, parsing
fails, or `confidence_overall` is nullish) or exactly the provider's raw
`confidence_overall` value passed through without numeric or range
validation; the `[0, 1]` bound therefore holds only when the provider's
self-report respects it. -/
theorem c5_amended (openaiConfigured : Bool) (env : Env) (proto host : String)
    (f : UploadedFile) (llm : String → LLMOutcome) :
    (docsResponse openaiConfigured env proto host f llm).confidence = .vNum 0.7
    ∨ ∃ out v,
        llm (sentPrompt f) = .returns out
        ∧ (∃ content, contentOfE out = .ok content
            ∧ env.jsonParse (if jsTruthy content then content else jsonDefault) = .ok v)
        ∧ jsNullish v = false
        ∧ jsNullish (jsMember v "confidence_overall") = false
        ∧ (docsResponse openaiConfigured env proto host f llm).confidence
          = jsMember v "confidence_overall" := by
  cases openaiConfigured with
  | false => exact Or.inl rfl
  | true =>
    rcases hllm : llm (sentPrompt f) with _ | out
    · left
      simp [docsResponse, routeFields, hllm]
    · rcases hc : contentOfE out with e | content
      · left
        simp [docsResponse, routeFields, extractionStep, hllm, hc]
      · rcases hp : env.jsonParse (if jsTruthy content then content else jsonDefault)
          with v | _
        · cases hn : jsNullish v with
          | true =>
            left
            simp [docsResponse, routeFields, extractionStep, hllm, hc, hp, jsGetE, hn]
          | false =>
            cases hco : jsNullish (jsMember v "confidence_overall") with
            | true =>
              left
              simp [docsResponse, routeFields, extractionStep, hllm, hc, hp, jsGetE,
                hn, hco]
            | false =>
              right
              refine ⟨out, v, rfl, ⟨content, hc, hp⟩, hn, hco, ?_⟩
              simp [docsResponse, routeFields, extractionStep, hllm, hc, hp, jsGetE,
                hn, hco]
        · left
          simp [docsResponse, routeFields, extractionStep, hllm, hc, hp]

/-! Section: Claim C6 -/

/-- Claim C6 as stated is false: a present but non-numeric
`confidence_overall` (here the string `"high"`) is passed through to the
caller, not replaced by the 0.7 default — `??` only tests for
null/undefined. -/
theorem c6_counterexample :
    (docsResponse true envStd "https" "api.test" testFile
        (llmRespond confHighContent)).confidence
      = .vStr "high"
    ∧ JsValue.vStr "high" ≠ JsValue.vNum 0.7 := by
  exact ⟨rfl, by simp⟩

/-- Claim C6 amended: on a successful structured extraction the returned
confidence equals the provider's raw `confidence_overall` whenever that
member is non-nullish — regardless of its type or range — and equals the
policy constant 0.7 exactly when the member is null or undefined. -/
theorem c6_amended (env : Env) (proto host : String) (f : UploadedFile)
    (llm : String → LLMOutcome) (out content v : JsValue)
    (hout : llm (sentPrompt f) = .returns out)
    (h1 : contentOfE out = .ok content)
    (h2 : env.jsonParse (if jsTruthy content then content else jsonDefault) = .ok v)
    (h3 : jsNullish v = false) :
    (docsResponse true env proto host f llm).confidence
      = (if jsNullish (jsMember v "confidence_overall") then JsValue.vNum 0.7
         else jsMember v "confidence_overall") := by
  rw [docsResponse_success hout h1 h2 h3]

/-- Witness for the amended C6 at the `confidence_overall: 5` reply. -/
theorem c6_amended_witness :
    (docsResponse true envStd "https" "api.test" testFile
        (llmRespond confFiveContent)).confidence
      = (if jsNullish (jsMember (JsValue.vObj [("confidence_overall", JsValue.vNum 5)])
            "confidence_overall") then JsValue.vNum 0.7
         else jsMember (JsValue.vObj [("confidence_overall", JsValue.vNum 5)])
            "confidence_overall") :=
  c6_amended envStd "https" "api.test" testFile (llmRespond confFiveContent)
    (outWith confFiveContent) confFiveContent
    (.vObj [("confidence_overall", .vNum 5)]) rfl rfl rfl rfl

/-! Section: Claim C7 -/

/-- Claim C7 as stated is false: a syntactically valid JSON reply missing
every required key except `holder_name` is not turned into a failure — the
partial object is passed to the caller as a successful extraction with the
default confidence 0.7 and `doc_type` simply undefined. -/
theorem c7_counterexample :
    (docsResponse true envStd "https" "api.test" testFile
        (llmRespond missingKeysContent)).extracted
      = .vObj [("holder_name", .vStr "Mario")]
    ∧ jsMember (JsValue.vObj [("holder_name", JsValue.vStr "Mario")]) "doc_type"
      = JsValue.vUndefined
    ∧ (docsResponse true envStd "https" "api.test" testFile
        (llmRespond missingKeysContent)).confidence
      = .vNum 0.7 :=
  ⟨rfl, rfl, rfl⟩

/-- Claim C7 amended: the extractor performs no required-key validation; a
syntactically valid reply is accepted as-is, so every member of the
returned record equals the corresponding member of the parsed reply —
fields the provider omitted stay `undefined` (nothing is invented), and no
failure is signalled. -/
theorem c7_amended (env : Env) (proto host : String) (f : UploadedFile)
    (llm : String → LLMOutcome) (out content v : JsValue) (k : String)
    (hout : llm (sentPrompt f) = .returns out)
    (h1 : contentOfE out = .ok content)
    (h2 : env.jsonParse (if jsTruthy content then content else jsonDefault) = .ok v)
    (h3 : jsNullish v = false) :
    jsMember (docsResponse true env proto host f llm).extracted k = jsMember v k := by
  rw [docsResponse_success hout h1 h2 h3]

/-- Witness for the amended C7 at the schema-incomplete reply, looking up
the missing `doc_type` key. -/
theorem c7_amended_witness :
    jsMember (docsResponse true envStd "https" "api.test" testFile
        (llmRespond missingKeysContent)).extracted "doc_type"
      = jsMember (JsValue.vObj [("holder_name", JsValue.vStr "Mario")]) "doc_type" :=
  c7_amended envStd "https" "api.test" testFile (llmRespond missingKeysContent)
    (outWith missingKeysContent) missingKeysContent
    (.vObj [("holder_name", .vStr "Mario")]) "doc_type" rfl rfl rfl rfl

/-! Section: Claim C8 -/

/-- Claim C8 as stated is false for the docs route: the OCR text returned
for file `doc.pdf` is the bare placeholder `OCR from: doc.pdf`, which
carries no marker that OCR was not performed (no casing of the word
`stub` occurs in it), and the response record has no stub flag; by
contrast the MVP upload route's stub string is marked.  (The
"does not raise" and "names the original file" parts do hold.) -/
theorem c8_counterexample :
    (docsResponse false envStd "https" "api.test" testFile llmDown).ocr
      = "OCR from: doc.pdf"
    ∧ mentionsStub "OCR from: doc.pdf" = false
    ∧ mentionsStub (uploadOcrStub "doc.pdf" "/uploads/1700000000000_doc.pdf") = true :=
  ⟨rfl, rfl, rfl⟩

/-- Claim C8 amended: neither route can raise from its OCR step, and each
returns a deterministic string naming the original file; the MVP upload
route's string marks itself as a stub (it starts with `(OCR stub)` and
points at enabling real OCR), while the docs route returns the bare
placeholder `OCR from: <name>`, and no boolean stub flag exists in either
response. -/
theorem c8_amended (base proto host : String) (openaiConfigured : Bool)
    (env : Env) (f : UploadedFile) (llm : String → LLMOutcome) :
    uploadRoute base (some f)
      = .success
          { ok := true
            file := "/uploads/" ++ rev1Filename f
            url := base ++ ("/uploads/" ++ rev1Filename f)
            ocr := uploadOcrStub f.originalname ("/uploads/" ++ rev1Filename f) }
    ∧ marksStubP (uploadOcrStub f.originalname ("/uploads/" ++ rev1Filename f))
    ∧ (docsResponse openaiConfigured env proto host f llm).ocr
      = "OCR from: " ++ f.originalname := by
  refine ⟨rfl, ?_, rfl⟩
  refine ⟨" File caricato correttamente: " ++ f.originalname ++ "\nPercorso: "
      ++ ("/uploads/" ++ rev1Filename f)
      ++ "\nNota: abilita Google Vision per OCR reale.", ?_⟩
  unfold uploadOcrStub
  simp only [String.append_assoc]
  conv_rhs => rw [← String.append_assoc]
  rfl

/-! Section: Claim C9 -/

/-- Claim C9: two uploads differing only in the stored file bytes produce
the same OCR text, the same prompt to the language model, and — the
provider being the same deterministic function of the prompt — the very
same route result: the pipeline never reads the uploaded bytes. -/
theorem c9_ignores_file_bytes (openaiConfigured : Bool) (env : Env)
    (proto host name : String) (ts : Nat) (bytes1 bytes2 : List Nat)
    (llm : String → LLMOutcome) :
    workersDocsRoute openaiConfigured env proto host
        (some { originalname := name, bytes := bytes1, timestamp := ts }) llm
      = workersDocsRoute openaiConfigured env proto host
        (some { originalname := name, bytes := bytes2, timestamp := ts }) llm
    ∧ sentPrompt { originalname := name, bytes := bytes1, timestamp := ts }
      = sentPrompt { originalname := name, bytes := bytes2, timestamp := ts }
    ∧ docsOcrText
        (UploadedFile.originalname { originalname := name, bytes := bytes1, timestamp := ts })
      = docsOcrText
        (UploadedFile.originalname { originalname := name, bytes := bytes2, timestamp := ts }) :=
  ⟨rfl, rfl, rfl⟩

/-! Section: Claim C10 -/

/-- Claim C10: when the provider's reply has an empty or absent message
content, the route treats it as a successful extraction — the content
defaults to the text `\x7b\x7d`, which a JSON-compliant parser turns into
the empty object, and the response carries `extracted = \x7b\x7d` with the
default confidence 0.7; the catch path is never taken. -/
theorem c10_empty_content (env : Env) (proto host : String) (f : UploadedFile)
    (llm : String → LLMOutcome) (out content : JsValue)
    (hout : llm (sentPrompt f) = .returns out)
    (h1 : contentOfE out = .ok content)
    (hempty : content = .vStr "" ∨ content = .vNull ∨ content = .vUndefined)
    (hjson : env.jsonParse jsonDefault = .ok (.vObj [])) :
    (docsResponse true env proto host f llm).extracted = .vObj []
    ∧ (docsResponse true env proto host f llm).confidence = .vNum 0.7 := by
  have h2 : env.jsonParse (if jsTruthy content then content else jsonDefault)
      = .ok (.vObj []) := by
    rcases hempty with h | h | h <;> subst h <;> simpa [jsTruthy] using hjson
  have hres := @docsResponse_success env proto host f llm out content (.vObj [])
    hout h1 h2 rfl
  rw [hres]
  exact ⟨rfl, rfl⟩

/-- Witness for C10 at the empty-string content. -/
theorem c10_empty_content_witness :
    (docsResponse true envStd "https" "api.test" testFile
        (llmRespond (.vStr ""))).extracted = .vObj []
    ∧ (docsResponse true envStd "https" "api.test" testFile
        (llmRespond (.vStr ""))).confidence = .vNum 0.7 :=
  c10_empty_content envStd "https" "api.test" testFile (llmRespond (.vStr ""))
    (outWith (.vStr "")) (.vStr "") rfl rfl (Or.inl rfl) rfl

end Kanthera
